import Mathlib

/-!
A shallow embedding of the `Player` class of this repository (the guild music
player: session registry, queue commands, and the track-advance logic of
`_playTrack` / `_playYTDLStream`), together with theorems settling the frozen
claims about it.

Modelling conventions:
* JS object references are modelled by a `ref : Nat` field on `Track`;
  JS `===` between tracks is equality of the embedded values.
* A JS array of tracks may hold `undefined` entries (`Array.prototype.shift`
  on an empty array returns `undefined`, and the source stores that result
  back into the array), so queue entries have type `Option Track`, with
  `none` standing for `undefined`.
* External calls (joining/leaving the voice channel, the dispatcher, the
  ytdl stream factory, event emission) are recorded as an ordered list of
  `Effect`s produced by each operation.
* Commands and pipeline signals are handled sequentially, one at a time, in
  program order (the single-threaded event-loop model of the spec, section
  5); a promise rejection or a thrown `TypeError` is an `Except.error` /
  `none`.
-/

namespace DiscordPlayer

/-- A track, as produced by the provider search.  `ref` models the JS object
reference identity (two distinct `new Track(...)` objects have distinct
`ref`s); `requestedBy` is the mutable requester attribution (a user id). -/
structure Track where
  ref : Nat
  url : String
  requestedBy : Option Nat
deriving DecidableEq, Repr

/-- An entry of the `queue.tracks` JS array: a track object or `undefined`. -/
abbrev JSTrack := Option Track

/-- JS `array[0]` as an entry value: `undefined` when the array is empty. -/
def jsHead (l : List JSTrack) : JSTrack :=
  match l with
  | [] => none
  | x :: _ => x

/-- JS `Array.prototype.shift`: returns the removed head (`undefined` when
empty) and the remaining array. -/
def jsShift (l : List JSTrack) : JSTrack × List JSTrack :=
  match l with
  | [] => (none, [])
  | x :: xs => (x, xs)

/-- JS `queue.tracks[i]` for a number `i`: `undefined` for a negative or
out-of-range index; otherwise the entry (which may itself be `undefined`). -/
def jsIndex (l : List JSTrack) (i : Int) : JSTrack :=
  if i < 0 then none else (l.get? i.toNat).getD none

/-- The module-level `filters` table of ffmpeg filter definitions, in source
(insertion) order. -/
def filtersTable : List (String × String) :=
  [("bassboost", "bass=g=20,dynaudnorm=f=200"),
   ("8D", "apulsator=hz=0.128"),
   ("vaporwave", "asetrate=441000*.8,aresample=44100,atempo=1.1"),
   ("nightcore", "asetrate=441001*.25"),
   ("phaser", "aphaser=in_gain=0.4"),
   ("tremolo", "tremolo=f=6.5"),
   ("reverse", "areverse"),
   ("treble", "treble=g=\x7bGAIN\x7d"),
   ("normalizer", "dynaudnorm=f=150"),
   ("surrounding", "surround"),
   ("pulsator", "apulsator=hz=1"),
   ("subboost", "asubboost")]

/-- JS object property read `tbl[k]`: `undefined` when the key is absent. -/
def jsLookup (tbl : List (String × String)) (k : String) : Option String :=
  (tbl.find? (fun p => p.1 == k)).map (fun p => p.2)

/-- JS object property write `m[k] = v`: overwrites in place when the key
exists, otherwise appends the key in insertion order. -/
def setKey (m : List (String × Bool)) (k : String) (v : Bool) : List (String × Bool) :=
  if m.any (fun p => p.1 == k) then
    m.map (fun p => if p.1 == k then (k, v) else p)
  else m ++ [(k, v)]

/-- The merge loop of `updateFilters`:
`Object.keys(newFilters).forEach(n => queue.filters[n] = newFilters[n])`. -/
def mergeFilters (old nf : List (String × Bool)) : List (String × Bool) :=
  nf.foldl (fun m p => setKey m p.1 p.2) old

/-- Modelled from the spec: the `Queue` record (`./Queue` is required by the
source but its file is not under `src/`).  Per section 3 a just-created
session has an empty pending sequence, no current track and all playback
flags false.  The spec gives no default volume; 100 is used and no claim
depends on it.  The external transport handle is not part of the state (its
calls are recorded as effects). -/
structure Queue where
  guildID : String
  tracks : List JSTrack
  playing : JSTrack
  filters : List (String × Bool)
  volume : ℚ
  paused : Bool
  stopped : Bool
  repeatMode : Bool
  lastSkipped : Bool
deriving DecidableEq, Repr

/-- Modelled from the spec: `new Queue(guildID)`, the just-created session. -/
def Queue.new (guildID : String) : Queue :=
  { guildID := guildID, tracks := [], playing := none, filters := [],
    volume := 100, paused := false, stopped := false, repeatMode := false,
    lastSkipped := false }

/-- The `PlayerOptions` record. -/
structure PlayerOptions where
  leaveOnEnd : Bool
  leaveOnStop : Bool
  leaveOnEmpty : Bool
deriving DecidableEq, Repr

/-- `defaultPlayerOptions` from the source. -/
def defaultPlayerOptions : PlayerOptions :=
  { leaveOnEnd := true, leaveOnStop := true, leaveOnEmpty := true }

/-- The mutable state of the player: the `this.queues` registry and the
options. -/
structure PlayerState where
  queues : List Queue
  options : PlayerOptions
deriving DecidableEq, Repr

/-- Rejection values of the command promises: `new Error(Not playing)`,
`new Error(Track not found)`, and a thrown `TypeError`. -/
inductive PlayerError
  | notPlaying
  | trackNotFound
  | typeError
deriving DecidableEq, Repr

/-- Calls made on external collaborators and events emitted on the queue,
in program order. -/
inductive Effect
  | joinChannel
  | leaveChannel
  | dispatcherEnd
  | dispatcherPause
  | dispatcherResume
  | ytdlStream (url : String) (seek : Option ℚ) (encoderArgs : List String)
  | playStream
  | setVolumeLogarithmic (gain : ℚ)
  | emitEnd
  | emitStop
  | emitTrackChanged (now prev : JSTrack) (lastSkipped repeatMode : Bool)
deriving DecidableEq, Repr

/-- `this.queues.find((g) => g.guildID === guildID)`. -/
def findQueue (st : PlayerState) (guildID : String) : Option Queue :=
  st.queues.find? (fun q => q.guildID == guildID)

/-- In-place mutation of the queue object returned by `find`: the first
registry entry with the given key is replaced, the rest untouched. -/
def updateFirst (qs : List Queue) (guildID : String) (f : Queue → Queue) : List Queue :=
  match qs with
  | [] => []
  | q :: rest => if q.guildID == guildID then f q :: rest else q :: updateFirst rest guildID f

/-- JS string conversion of an array entry for `Array.prototype.join`. -/
def jsStr (o : Option String) : String :=
  match o with
  | some s => s
  | none => "undefined"

/-- The encoder-argument computation of `_playYTDLStream`: collect the
ffmpeg definition of every enabled filter name (in the insertion order of
the filter set), and produce `[-af, joined]` unless no filter is enabled. -/
def encoderArgsOf (fs : List (String × Bool)) : List String :=
  let chain := (fs.filter (fun p => p.2)).map (fun p => jsLookup filtersTable p.1)
  if chain.length < 1 then [] else ["-af", String.intercalate "," (chain.map jsStr)]

/-- `_playYTDLStream(queue, updateFilter)`: opens a ytdl stream for
`queue.playing.url` (a `TypeError`, modelled as `none`, if there is no
current track) seeked to `dispatcher.streamTime / 1000` when restarting for
a filter update, plays it on the connection and applies the stored volume.
`streamTime` is the elapsed playback time of the external dispatcher in
milliseconds; it is only read when `updateFilter` is true. -/
def playYTDLStream (q : Queue) (updateFilter : Bool) (streamTime : ℚ) : Option (List Effect) :=
  match q.playing with
  | none => none
  | some t =>
    let seek : Option ℚ := if updateFilter then some (streamTime / 1000) else none
    some [Effect.ytdlStream t.url seek (encoderArgsOf q.filters),
          Effect.playStream,
          Effect.setVolumeLogarithmic (q.volume / 200)]

/-- `_playTrack(guildID, firstPlay)`: the track-advance pass, run when a
pipeline emits `finish` (and once from `play`).  If fewer than two entries
remain in `queue.tracks` (with repeat off and not the first play) the
session is torn down; otherwise the next entry is shifted into
`queue.playing` (or kept when repeating), `lastSkipped` is reset, a new
pipeline is started, and — unless this is the first play — `trackChanged`
is emitted once the pipeline starts, carrying the value `queue.lastSkipped`
holds at that moment.  `none` models a thrown `TypeError`. -/
def playTrack (st : PlayerState) (guildID : String) (firstPlay : Bool) :
    Option (PlayerState × List Effect) :=
  match findQueue st guildID with
  | none => none
  | some q =>
    if q.tracks.length < 2 ∧ firstPlay = false ∧ q.repeatMode = false then
      let leaveEffs := if st.options.leaveOnEnd && !q.stopped then [Effect.leaveChannel] else []
      let st' : PlayerState := { st with queues := st.queues.filter (fun g => g.guildID != guildID) }
      if q.stopped then
        some (st', leaveEffs ++ (if st.options.leaveOnStop then [Effect.leaveChannel] else [])
                    ++ [Effect.emitStop])
      else
        some (st', leaveEffs ++ [Effect.emitEnd])
    else
      let wasPlaying := q.playing
      let nowP := if q.repeatMode then wasPlaying else (jsShift q.tracks).1
      let tracks' := if q.repeatMode then q.tracks else (jsShift q.tracks).2
      let q' : Queue := { q with playing := nowP, tracks := tracks', lastSkipped := false }
      match playYTDLStream q' false 0 with
      | none => none
      | some effs =>
        some ({ st with queues := updateFirst st.queues guildID (fun _ => q') },
              effs ++ (if firstPlay then []
                       else [Effect.emitTrackChanged nowP wasPlaying q'.lastSkipped q'.repeatMode]))

/-- `searchTracks(query)`.  The external `ytsr` provider (its transport, the
YouTube-URL id extraction applied to the query, and the filtering of the
results to entries of type `video`) is modelled as a function from the query
to the ordered list of video results already converted to `Track`s. -/
def searchTracks (ytsrResults : String → List Track) (query : String) : List Track :=
  ytsrResults query

/-- `play(voiceChannel, track, user)`.  Note the source removes stale
registry entries whose `guildID` equals `voiceChannel.id` (the channel id),
while the new queue is keyed by `voiceChannel.guild.id`; both ids are
therefore parameters.  When a query is given, `track = results[0]` and the
subsequent `track.requestedBy = user` throws a `TypeError` (`none`) if the
search had no results. -/
def play (ytsrResults : String → List Track) (st : PlayerState)
    (channelID guildID : String) (trackArg : Track ⊕ String) (user : Option Nat) :
    Option (Track × PlayerState × List Effect) :=
  let queues1 := st.queues.filter (fun g => g.guildID != channelID)
  let trackOpt : Option Track :=
    match trackArg with
    | Sum.inl t => some t
    | Sum.inr query => (searchTracks ytsrResults query).head?
  match trackOpt with
  | none => none
  | some t0 =>
    let track : Track := { t0 with requestedBy := user }
    let queue : Queue :=
      { Queue.new guildID with
        filters := filtersTable.map (fun p => (p.1, false)),
        tracks := [some track] }
    let st1 : PlayerState := { st with queues := queues1 ++ [queue] }
    match playTrack st1 guildID true with
    | none => none
    | some (st2, effs) => some (track, st2, Effect.joinChannel :: effs)

/-- `pause(guildID)`: pauses the dispatcher, sets `paused`, resolves
`queue.tracks[0]`. -/
def pause (st : PlayerState) (guildID : String) :
    Except PlayerError (JSTrack × PlayerState × List Effect) :=
  match findQueue st guildID with
  | none => Except.error PlayerError.notPlaying
  | some q =>
    let q' : Queue := { q with paused := true }
    Except.ok (jsIndex q.tracks 0,
      { st with queues := updateFirst st.queues guildID (fun _ => q') },
      [Effect.dispatcherPause])

/-- `resume(guildID)`: resumes the dispatcher, clears `paused`, resolves
`queue.tracks[0]`. -/
def resume (st : PlayerState) (guildID : String) :
    Except PlayerError (JSTrack × PlayerState × List Effect) :=
  match findQueue st guildID with
  | none => Except.error PlayerError.notPlaying
  | some q =>
    let q' : Queue := { q with paused := false }
    Except.ok (jsIndex q.tracks 0,
      { st with queues := updateFirst st.queues guildID (fun _ => q') },
      [Effect.dispatcherResume])

/-- `setVolume(guildID, percent)`: calls
`dispatcher.setVolumeLogarithmic(percent / 200)` and stores the percent. -/
def setVolume (st : PlayerState) (guildID : String) (percent : ℚ) :
    Except PlayerError (PlayerState × List Effect) :=
  match findQueue st guildID with
  | none => Except.error PlayerError.notPlaying
  | some q =>
    let q' : Queue := { q with volume := percent }
    Except.ok ({ st with queues := updateFirst st.queues guildID (fun _ => q') },
      [Effect.setVolumeLogarithmic (percent / 200)])

/-- The method names the `Player` class declares, in source order. -/
def playerMethods : List String :=
  ["updateFilters", "searchTracks", "isPlaying", "play", "pause", "resume",
   "stop", "setVolume", "getQueue", "addToQueue", "setQueue", "clearQueue",
   "skip", "nowPlaying", "setRepeatMode", "shuffle", "remove",
   "_handleVoiceStateUpdate", "_playYTDLStream", "_playTrack"]

/-- The JS property access `this.search` performed by `addToQueue`: the
class declares no method named `search` (the search method is named
`searchTracks`, see `playerMethods`), so the access yields `undefined`. -/
def playerSearchProp : Option (String → List Track) := none

/-- `addToQueue(guildID, trackName, requestedBy)`: resolves
`this.search(trackName)` — dispatching on the property `searchProp`, a
`TypeError` when it is `undefined` — then attributes and appends the first
result, rejecting `Track not found` when there is none. -/
def addToQueue (searchProp : Option (String → List Track)) (st : PlayerState)
    (guildID trackName : String) (requestedBy : Option Nat) :
    Except PlayerError (Track × PlayerState) :=
  match findQueue st guildID with
  | none => Except.error PlayerError.notPlaying
  | some q =>
    match searchProp with
    | none => Except.error PlayerError.typeError
    | some search =>
      match search trackName with
      | [] => Except.error PlayerError.trackNotFound
      | t :: _ =>
        let t' : Track := { t with requestedBy := requestedBy }
        Except.ok (t',
          { st with queues :=
              updateFirst st.queues guildID (fun _ => { q with tracks := q.tracks ++ [some t'] }) })

/-- `clearQueue(guildID)`: `const currentlyPlaying = queue.tracks.shift();
queue.tracks = [currentlyPlaying]`; resolves the mutated queue. -/
def clearQueue (st : PlayerState) (guildID : String) :
    Except PlayerError (Queue × PlayerState) :=
  match findQueue st guildID with
  | none => Except.error PlayerError.notPlaying
  | some q =>
    let currentlyPlaying := (jsShift q.tracks).1
    let q' : Queue := { q with tracks := [currentlyPlaying] }
    Except.ok (q', { st with queues := updateFirst st.queues guildID (fun _ => q') })

/-- `skip(guildID)`: reads `queue.tracks[0]`, ends the dispatcher, sets
`lastSkipped = true`, resolves the read track. -/
def skip (st : PlayerState) (guildID : String) :
    Except PlayerError (JSTrack × PlayerState × List Effect) :=
  match findQueue st guildID with
  | none => Except.error PlayerError.notPlaying
  | some q =>
    let currentTrack := jsIndex q.tracks 0
    let q' : Queue := { q with lastSkipped := true }
    Except.ok (currentTrack,
      { st with queues := updateFirst st.queues guildID (fun _ => q') },
      [Effect.dispatcherEnd])

/-- `nowPlaying(guildID)`: resolves `queue.tracks[0]`. -/
def nowPlaying (st : PlayerState) (guildID : String) : Except PlayerError JSTrack :=
  match findQueue st guildID with
  | none => Except.error PlayerError.notPlaying
  | some q => Except.ok (jsIndex q.tracks 0)

/-- `shuffle(guildID)`: shifts the head, reorders the rest with the
comparator-based `Array.prototype.sort` (modelled by `sortImpl`, an
arbitrary permutation chosen by the random comparator), and unshifts the
head back. -/
def shuffle (st : PlayerState) (guildID : String)
    (sortImpl : List JSTrack → List JSTrack) :
    Except PlayerError (Queue × PlayerState) :=
  match findQueue st guildID with
  | none => Except.error PlayerError.notPlaying
  | some q =>
    let currentTrack := (jsShift q.tracks).1
    let q' : Queue := { q with tracks := currentTrack :: sortImpl (jsShift q.tracks).2 }
    Except.ok (q', { st with queues := updateFirst st.queues guildID (fun _ => q') })

/-- The `track` argument of `remove`: a number or a track object. -/
inductive RemoveArg
  | byIndex (i : Int)
  | byTrack (t : Track)
deriving DecidableEq, Repr

/-- `remove(guildID, track)`: looks the entry up by index or by `===`; if a
truthy entry is found, keeps only the entries that are `!==` to it; resolves
the found entry (`null`/`undefined`, i.e. `none`, on a miss). -/
def remove (st : PlayerState) (guildID : String) (arg : RemoveArg) :
    Except PlayerError (JSTrack × PlayerState) :=
  match findQueue st guildID with
  | none => Except.error PlayerError.notPlaying
  | some q =>
    match arg with
    | RemoveArg.byIndex i =>
      match jsIndex q.tracks i with
      | none => Except.ok (none, st)
      | some t =>
        let q' : Queue := { q with tracks := q.tracks.filter (fun e => e != some t) }
        Except.ok (some t,
          { st with queues := updateFirst st.queues guildID (fun _ => q') })
    | RemoveArg.byTrack t =>
      match q.tracks.find? (fun e => e == some t) with
      | none => Except.ok (none, st)
      | some e =>
        let q' : Queue := { q with tracks := q.tracks.filter (fun s => s != e) }
        Except.ok (e,
          { st with queues := updateFirst st.queues guildID (fun _ => q') })

/-- `updateFilters(guildID, newFilters)`: merges the toggles into
`queue.filters` and calls `_playYTDLStream(queue, true)`, which restarts the
pipeline for `queue.playing` seeked to the captured elapsed time. -/
def updateFilters (st : PlayerState) (guildID : String)
    (newFilters : List (String × Bool)) (streamTime : ℚ) :
    Except PlayerError (PlayerState × List Effect) :=
  match findQueue st guildID with
  | none => Except.error PlayerError.notPlaying
  | some q =>
    let q' : Queue := { q with filters := mergeFilters q.filters newFilters }
    match playYTDLStream q' true streamTime with
    | none => Except.error PlayerError.typeError
    | some effs =>
      Except.ok ({ st with queues := updateFirst st.queues guildID (fun _ => q') }, effs)

/-- Whether an effect is a `trackChanged` emission. -/
def isTrackChanged : Effect → Bool
  | Effect.emitTrackChanged _ _ _ _ => true
  | _ => false

/-- Test fixture: a session in mid-playback with the given current track and
pending entries, repeat off, nothing stopped or paused, no filters enabled
(an empty filter set and the default volume; neither matters to the claims
stated on these fixtures). -/
def mkQueue (g : String) (pl : JSTrack) (ts : List JSTrack) : Queue :=
  { guildID := g, tracks := ts, playing := pl, filters := [], volume := 100,
    paused := false, stopped := false, repeatMode := false, lastSkipped := false }

/-- Test fixture track (a distinct object reference). -/
def trackA : Track := { ref := 0, url := "urlA", requestedBy := none }

/-- Test fixture track (a distinct object reference). -/
def trackB : Track := { ref := 1, url := "urlB", requestedBy := none }

/-- Test fixture track (a distinct object reference). -/
def trackC : Track := { ref := 2, url := "urlC", requestedBy := none }

/-- Fixture for C1: a session past its first play, repeat off, current
track B and exactly one pending track C (the state reached from queue
[A, B, C] after A finishes). -/
def c1State : PlayerState :=
  { queues := [mkQueue "g" (some trackB) [some trackC]],
    options := defaultPlayerOptions }

/-- Fixture for C2: a registry holding a session for guild key g. -/
def c2State : PlayerState :=
  { queues := [mkQueue "g" (some trackA) [some trackB]],
    options := defaultPlayerOptions }

/-- Fixture for C3: a session whose pipeline is streaming A
(`queue.playing = A`) with pending sequence [B]. -/
def c3State : PlayerState :=
  { queues := [mkQueue "g" (some trackA) [some trackB]],
    options := defaultPlayerOptions }

/-- Fixture for the witness of C4: an existing session for key g. -/
def c4State : PlayerState :=
  { queues := [mkQueue "g" (some trackA) []],
    options := defaultPlayerOptions }

/-- Fixture for C5: the session record, streaming A with pending [B, C]. -/
def c5Queue : Queue := mkQueue "g" (some trackA) [some trackB, some trackC]

/-- Fixture for C5: a registry holding `c5Queue`. -/
def c5State : PlayerState :=
  { queues := [c5Queue], options := defaultPlayerOptions }

/-- Fixture for the witness of C5: `c5Queue` after `clearQueue`. -/
def c5QueueCleared : Queue := { c5Queue with tracks := [jsHead c5Queue.tracks] }

/-- Fixture for the witness of C5: `c5State` after `clearQueue`. -/
def c5StateCleared : PlayerState :=
  { c5State with queues := updateFirst c5State.queues "g" (fun _ => c5QueueCleared) }

/-- Fixture for the witness of C6: the session record. -/
def c6Queue : Queue := mkQueue "g" (some trackA) [some trackB]

/-- Fixture for the witness of C6: a registry holding `c6Queue`. -/
def c6State : PlayerState :=
  { queues := [c6Queue], options := defaultPlayerOptions }

/-- Fixture for C7: a session streaming A with pending [B, C], repeat off,
`lastSkipped` false. -/
def c7Start : PlayerState :=
  { queues := [mkQueue "g" (some trackA) [some trackB, some trackC]],
    options := defaultPlayerOptions }

/-- Fixture for C7: the state `skip` leaves behind (`lastSkipped` set). -/
def c7AfterSkip : PlayerState :=
  { queues := [{ mkQueue "g" (some trackA) [some trackB, some trackC] with
                 lastSkipped := true }],
    options := defaultPlayerOptions }

/-- Fixture for the witness of C8: the session record. -/
def c8Queue : Queue := mkQueue "gv" (some trackA) []

/-- Fixture for the witness of C8: a registry holding `c8Queue`. -/
def c8State : PlayerState :=
  { queues := [c8Queue], options := defaultPlayerOptions }

/-- Fixture for C9: a session whose pending sequence holds the same track
object (the same reference) twice. -/
def c9State : PlayerState :=
  { queues := [mkQueue "g" (some trackC) [some trackA, some trackA]],
    options := defaultPlayerOptions }

/-- Fixture for the witness of C9: the session record, duplicate-free
pending sequence. -/
def c9WQueue : Queue := mkQueue "gw" (some trackC) [some trackA, some trackB]

/-- Fixture for the witness of C9: a registry holding `c9WQueue`. -/
def c9WState : PlayerState :=
  { queues := [c9WQueue], options := defaultPlayerOptions }

/-- Fixture for the witness of C10: the session record, empty pending
sequence. -/
def c10Queue : Queue := mkQueue "ge" (some trackA) []

/-- Fixture for the witness of C10: a registry holding `c10Queue`. -/
def c10State : PlayerState :=
  { queues := [c10Queue], options := defaultPlayerOptions }

/-- `Array.prototype.shift` returns the head entry (`undefined` on empty). -/
theorem jsShift_fst (l : List JSTrack) : (jsShift l).1 = jsHead l := by
  cases l <;> rfl

/-- Replacing the registry entry that `find` located, by a new queue with
the same key, is observed by a subsequent `find` of that key. -/
theorem find_updateFirst (qs : List Queue) (g : String) (f : Queue → Queue) (q : Queue)
    (hq : qs.find? (fun x => x.guildID == g) = some q)
    (hf : (f q).guildID = q.guildID) :
    (updateFirst qs g f).find? (fun x => x.guildID == g) = some (f q) := by
  induction qs with
  | nil => simp [List.find?] at hq
  | cons q0 rest ih =>
    cases h : q0.guildID == g with
    | true =>
      simp only [List.find?, h] at hq
      injection hq with hq0
      subst hq0
      unfold updateFirst
      rw [if_pos h]
      simp only [List.find?, hf, h]
    | false =>
      simp only [List.find?, h] at hq
      unfold updateFirst
      rw [if_neg (by simp [h])]
      simp only [List.find?, h]
      exact ih hq

/-- An entry delivered by a JS index read is in the array. -/
theorem jsIndex_mem (l : List JSTrack) (i : Int) (t : Track)
    (h : jsIndex l i = some t) : some t ∈ l := by
  unfold jsIndex at h
  split at h
  · simp at h
  · cases hg : l.get? i.toNat with
    | none => rw [hg] at h; simp [Option.getD] at h
    | some e =>
      rw [hg] at h
      simp only [Option.getD] at h
      subst h
      exact List.get?_mem hg

/-- JS `find(s => s === track)` on an array containing the track returns
exactly that track. -/
theorem find_beq_of_mem (l : List JSTrack) (a : JSTrack) (h : a ∈ l) :
    l.find? (fun x => x == a) = some a := by
  induction l with
  | nil => cases h
  | cons x xs ih =>
    by_cases hx : x = a
    · subst hx
      simp [List.find?]
    · have hb : (x == a) = false := by simp [hx]
      simp only [List.find?, hb]
      exact ih ((List.mem_cons.mp h).resolve_left (fun he => hx he.symm))

/-- On a duplicate-free array, filtering one element away removes exactly
that element: the original is, up to order, the element consed on the
filtered remainder. -/
theorem perm_cons_filter (l : List JSTrack) (a : JSTrack) (ha : a ∈ l)
    (hnd : l.Nodup) :
    l.Perm (a :: l.filter (fun e => e != a)) := by
  induction l with
  | nil => cases ha
  | cons x xs ih =>
    rw [List.nodup_cons] at hnd
    rcases List.mem_cons.mp ha with rfl | haxs
    · have hf : xs.filter (fun e => e != a) = xs :=
        List.filter_eq_self.mpr (fun e he => by
          simp only [bne_iff_ne, ne_eq, decide_eq_true_eq]
          intro hex
          subst hex
          exact hnd.1 he)
      rw [List.filter_cons_of_neg, hf]
      simp
    · have hxne : x ≠ a := fun hx => by subst hx; exact hnd.1 haxs
      rw [List.filter_cons_of_pos]
      · exact (List.Perm.cons x (ih haxs hnd.2)).trans (List.Perm.swap a x _)
      · simp [hxne]

/-- Claim C1: the claim fails on the code.  With repeat off, current track B
and pending [C], the `finish` signal (`_playTrack(g, false)`) takes the
teardown branch (`queue.tracks.length < 2` counts only the pending entries,
the current track having been shifted out), leaves the channel, removes the
session and emits `end` — it does not pop C and start a pipeline for it, so
the last queued track is never played. -/
theorem playTrack_drops_last_pending_track :
    playTrack c1State "g" false
      = some ({ queues := [], options := defaultPlayerOptions },
              [Effect.leaveChannel, Effect.emitEnd]) := by
  decide

/-- Claim C2: the claim fails on the code.  `play()` filters stale sessions
by `voiceChannel.id` (here the channel id chan) while sessions are keyed by
`voiceChannel.guild.id` (here g), so the existing session for key g survives
and a second session for the same key is pushed: after the call the registry
holds two sessions keyed g. -/
theorem play_duplicates_session_key :
    (play (fun _ => []) c2State "chan" "g" (Sum.inl trackC) none).map
        (fun r => r.2.1.queues.map (fun q => q.guildID))
      = some ["g", "g"] := by
  decide

/-- Claim C3: the claim fails on the code.  `nowPlaying`, `pause` and
`resume` all resolve `queue.tracks[0]` — the next pending track B — while
the track the pipeline streams is `queue.playing` = A (as the
`_playYTDLStream` effects show: the ytdl stream is opened for the url of
A). -/
theorem nowPlaying_returns_next_pending :
    nowPlaying c3State "g" = Except.ok (some trackB)
    ∧ (pause c3State "g").map (fun r => r.1) = Except.ok (some trackB)
    ∧ (resume c3State "g").map (fun r => r.1) = Except.ok (some trackB)
    ∧ (findQueue c3State "g").map (fun q => q.playing) = some (some trackA)
    ∧ (findQueue c3State "g").bind (fun q => playYTDLStream q false 0)
        = some [Effect.ytdlStream "urlA" none [], Effect.playStream,
                Effect.setVolumeLogarithmic (100 / 200)]
    ∧ trackB ≠ trackA :=
  ⟨rfl, rfl, rfl, rfl, rfl, by decide⟩

/-- Claim C4: the claim fails on the code.  `addToQueue` calls
`this.search(trackName)`, but the `Player` class declares no method named
`search` (the declared search method is `searchTracks`), so for every
existing session and every query the call throws a `TypeError` inside the
promise executor: the command never searches, never appends, and never
rejects with `Track not found`. -/
theorem addToQueue_always_fails (st : PlayerState) (guildID trackName : String)
    (requestedBy : Option Nat) (q : Queue) (hq : findQueue st guildID = some q) :
    "search" ∉ playerMethods
    ∧ addToQueue playerSearchProp st guildID trackName requestedBy
        = Except.error PlayerError.typeError := by
  refine ⟨by decide, ?_⟩
  simp [addToQueue, hq, playerSearchProp]

/-- Witness for C4 at a concrete session and query. -/
theorem addToQueue_always_fails_w :
    addToQueue playerSearchProp c4State "g" "some query" none
      = Except.error PlayerError.typeError :=
  (addToQueue_always_fails c4State "g" "some query" none
    (mkQueue "g" (some trackA) []) rfl).2

/-- Claim C5, counterexample: with the pipeline streaming A and pending
[B, C], `clearQueue` leaves the pending sequence `[B]` — the former head of
the pending sequence — while the currently-playing track is still A, so the
sequence does not end up containing only the currently-playing track. -/
theorem clearQueue_keeps_next_not_current :
    (clearQueue c5State "g").map (fun r => (r.1.tracks, r.1.playing))
      = Except.ok ([some trackB], some trackA)
    ∧ [some trackB] ≠ [some trackA] :=
  ⟨rfl, by decide⟩

/-- Claim C5, amended: `clearQueue` replaces the pending sequence with the
single entry that was at its head — the next pending track, or `undefined`
when the sequence was empty — and leaves every other session field,
including the separately held streaming track `playing`, unchanged. -/
theorem clearQueue_amended (st : PlayerState) (g : String) (q : Queue)
    (hq : findQueue st g = some q) :
    clearQueue st g
      = Except.ok ({ q with tracks := [jsHead q.tracks] },
          { st with queues :=
              updateFirst st.queues g (fun _ => { q with tracks := [jsHead q.tracks] }) })
    ∧ findQueue
        { st with queues :=
            updateFirst st.queues g (fun _ => { q with tracks := [jsHead q.tracks] }) } g
        = some { q with tracks := [jsHead q.tracks] } := by
  constructor
  · simp [clearQueue, hq, jsShift_fst]
  · exact find_updateFirst st.queues g (fun _ => { q with tracks := [jsHead q.tracks] }) q hq rfl

/-- Witness for the amended C5 at a concrete session. -/
theorem clearQueue_amended_w :
    clearQueue c5State "g" = Except.ok (c5QueueCleared, c5StateCleared)
    ∧ findQueue c5StateCleared "g" = some c5QueueCleared :=
  clearQueue_amended c5State "g" c5Queue rfl

/-- Claim C6: confirmed.  For every existing session with a current track,
`updateFilters` merges the toggles into the filter set and restarts a
pipeline for the same current track, seeked to the captured elapsed time
(streamTime / 1000 seconds) with the merged filter chain; the current track
identity and the pending sequence are unchanged and no `trackChanged` event
is emitted. -/
theorem updateFilters_restarts_same_track (st : PlayerState) (g : String)
    (nf : List (String × Bool)) (streamTime : ℚ) (q : Queue) (t : Track)
    (hq : findQueue st g = some q) (hp : q.playing = some t) :
    updateFilters st g nf streamTime
      = Except.ok
          ({ st with queues :=
               updateFirst st.queues g (fun _ => { q with filters := mergeFilters q.filters nf }) },
           [Effect.ytdlStream t.url (some (streamTime / 1000))
              (encoderArgsOf (mergeFilters q.filters nf)),
            Effect.playStream, Effect.setVolumeLogarithmic (q.volume / 200)])
    ∧ findQueue
        { st with queues :=
            updateFirst st.queues g (fun _ => { q with filters := mergeFilters q.filters nf }) } g
        = some { q with filters := mergeFilters q.filters nf }
    ∧ ({ q with filters := mergeFilters q.filters nf }).playing = some t
    ∧ ({ q with filters := mergeFilters q.filters nf }).tracks = q.tracks
    ∧ [Effect.ytdlStream t.url (some (streamTime / 1000))
         (encoderArgsOf (mergeFilters q.filters nf)),
       Effect.playStream, Effect.setVolumeLogarithmic (q.volume / 200)].filter isTrackChanged
        = [] := by
  refine ⟨?_, ?_, hp, rfl, rfl⟩
  · simp [updateFilters, playYTDLStream, hq, hp]
  · exact find_updateFirst st.queues g
      (fun _ => { q with filters := mergeFilters q.filters nf }) q hq rfl

/-- Witness for C6 at a concrete session, toggle set and elapsed time. -/
theorem updateFilters_restarts_same_track_w :
    (updateFilters c6State "g" [("bassboost", true)] 2000).map (fun r => r.2)
      = Except.ok
          [Effect.ytdlStream "urlA" (some (2000 / 1000))
             (encoderArgsOf (mergeFilters c6Queue.filters [("bassboost", true)])),
           Effect.playStream, Effect.setVolumeLogarithmic (c6Queue.volume / 200)]
    ∧ encoderArgsOf (mergeFilters c6Queue.filters [("bassboost", true)])
        = ["-af", "bass=g=20,dynaudnorm=f=200"] := by
  refine ⟨?_, rfl⟩
  rw [(updateFilters_restarts_same_track c6State "g" [("bassboost", true)] 2000
        c6Queue trackA rfl rfl).1]
  rfl

/-- Claim C7: the claim fails on the code.  `skip` sets
`lastSkipped := true` and ends the dispatcher; the resulting `finish` signal
runs `_playTrack(g, false)`, which resets `lastSkipped := false` *before*
the `trackChanged` payload reads it, so the one `trackChanged` event
produced by the skip carries `lastSkipped = false`, not `true`. -/
theorem skip_event_lastSkipped_false :
    skip c7Start "g"
      = Except.ok (some trackB, c7AfterSkip, [Effect.dispatcherEnd])
    ∧ (playTrack c7AfterSkip "g" false).map (fun r => r.2.filter isTrackChanged)
      = some [Effect.emitTrackChanged (some trackB) (some trackA) false false] :=
  ⟨rfl, rfl⟩

/-- Claim C8: confirmed.  For every existing session and every integer
percent — no range check is performed — `setVolume` stores the percent in
the session and calls the pipeline gain with percent / 200. -/
theorem setVolume_stores_percent_gain (st : PlayerState) (g : String)
    (percent : ℤ) (q : Queue) (hq : findQueue st g = some q) :
    setVolume st g (percent : ℚ)
      = Except.ok
          ({ st with queues :=
               updateFirst st.queues g (fun _ => { q with volume := (percent : ℚ) }) },
           [Effect.setVolumeLogarithmic ((percent : ℚ) / 200)])
    ∧ findQueue
        { st with queues :=
            updateFirst st.queues g (fun _ => { q with volume := (percent : ℚ) }) } g
        = some { q with volume := (percent : ℚ) } := by
  constructor
  · simp [setVolume, hq]
  · exact find_updateFirst st.queues g (fun _ => { q with volume := (percent : ℚ) }) q hq rfl

/-- Witness for C8: `setVolume(50)` stores percent 50 and sets the gain to
50 / 200 = 0.25. -/
theorem setVolume_stores_percent_gain_w :
    setVolume c8State "gv" ((50 : ℤ) : ℚ)
      = Except.ok
          ({ c8State with queues :=
               updateFirst c8State.queues "gv" (fun _ => { c8Queue with volume := ((50 : ℤ) : ℚ) }) },
           [Effect.setVolumeLogarithmic (((50 : ℤ) : ℚ) / 200)])
    ∧ ((50 : ℤ) : ℚ) / 200 = 1 / 4 :=
  ⟨(setVolume_stores_percent_gain c8State "gv" 50 c8Queue rfl).1, by norm_num⟩

/-- Claim C9, counterexample: with the same track object A appearing twice
in the pending sequence (as `setQueue` permits), `remove(0)` deletes both
occurrences — the filter drops every entry `===` to the match — leaving `[]`
rather than the `[A]` that removing exactly one entry would leave. -/
theorem remove_erases_duplicate_entries :
    (remove c9State "g" (RemoveArg.byIndex 0)).map
        (fun r => (r.1, r.2.queues.map (fun q => q.tracks)))
      = Except.ok (some trackA, [[]])
    ∧ ([] : List JSTrack) ≠ [some trackA] :=
  ⟨rfl, by decide⟩

/-- Claim C9, amended: for every existing session, `remove` removes every
occurrence of the matched entry and returns it — no occurrence of the match
remains and every other entry is kept — with an out-of-range index or a
track not present it returns null and leaves the state exactly unchanged;
only when the pending sequence holds no duplicate references is the removal
of exactly one entry (the old sequence is, up to order, the removed entry
consed on the new one), which is the conjunct conditioned on `Nodup`. -/
theorem remove_amended (st : PlayerState) (g : String) (q : Queue)
    (hq : findQueue st g = some q) :
    (∀ i : Int, jsIndex q.tracks i = none →
       remove st g (RemoveArg.byIndex i) = Except.ok (none, st))
    ∧ (∀ t : Track, some t ∉ q.tracks →
        remove st g (RemoveArg.byTrack t) = Except.ok (none, st))
    ∧ (∀ (i : Int) (t : Track), jsIndex q.tracks i = some t →
        remove st g (RemoveArg.byIndex i)
          = Except.ok (some t,
              { st with queues := updateFirst st.queues g (fun _ => { q with tracks := q.tracks.filter (fun e => e != some t) }) })
        ∧ some t ∉ q.tracks.filter (fun e => e != some t)
        ∧ (∀ e : JSTrack, e ≠ some t → e ∈ q.tracks → e ∈ q.tracks.filter (fun e => e != some t))
        ∧ (q.tracks.Nodup → q.tracks.Perm (some t :: q.tracks.filter (fun e => e != some t))))
    ∧ (∀ t : Track, some t ∈ q.tracks →
        remove st g (RemoveArg.byTrack t)
          = Except.ok (some t,
              { st with queues := updateFirst st.queues g (fun _ => { q with tracks := q.tracks.filter (fun e => e != some t) }) })
        ∧ some t ∉ q.tracks.filter (fun e => e != some t)
        ∧ (∀ e : JSTrack, e ≠ some t → e ∈ q.tracks → e ∈ q.tracks.filter (fun e => e != some t))
        ∧ (q.tracks.Nodup → q.tracks.Perm (some t :: q.tracks.filter (fun e => e != some t)))) := by
  refine ⟨?_, ?_, ?_, ?_⟩
  · intro i h
    simp [remove, hq, h]
  · intro t h
    have hf : q.tracks.find? (fun e => e == some t) = none :=
      List.find?_eq_none.mpr (fun x hx => by
        simp only [beq_iff_eq]
        rintro rfl
        exact h hx)
    simp [remove, hq, hf]
  · intro i t h
    refine ⟨by simp [remove, hq, h], by simp [List.mem_filter], ?_, ?_⟩
    · intro e hne he
      exact List.mem_filter.mpr ⟨he, by simp [hne]⟩
    · intro hnd
      exact perm_cons_filter q.tracks (some t) (jsIndex_mem q.tracks i t h) hnd
  · intro t h
    have hf : q.tracks.find? (fun e => e == some t) = some (some t) :=
      find_beq_of_mem q.tracks (some t) h
    refine ⟨by simp [remove, hq, hf], by simp [List.mem_filter], ?_, ?_⟩
    · intro e hne he
      exact List.mem_filter.mpr ⟨he, by simp [hne]⟩
    · intro hnd
      exact perm_cons_filter q.tracks (some t) h hnd

/-- Witness for the amended C9: an out-of-range miss, an in-range hit with
no occurrence of the match surviving, and the exactly-one-removed fact on
the concrete duplicate-free session. -/
theorem remove_amended_w :
    remove c9WState "gw" (RemoveArg.byIndex 5) = Except.ok (none, c9WState)
    ∧ (remove c9WState "gw" (RemoveArg.byIndex 0)
        = Except.ok (some trackA,
            { c9WState with queues := updateFirst c9WState.queues "gw" (fun _ => { c9WQueue with tracks := c9WQueue.tracks.filter (fun e => e != some trackA) }) })
      ∧ some trackA ∉ c9WQueue.tracks.filter (fun e => e != some trackA)
      ∧ c9WQueue.tracks.Perm (some trackA :: c9WQueue.tracks.filter (fun e => e != some trackA))) := by
  have h := remove_amended c9WState "gw" c9WQueue rfl
  have hit := h.2.2.1 0 trackA rfl
  exact ⟨h.1 5 rfl, hit.1, hit.2.1, hit.2.2.2 (by decide)⟩

/-- Claim C10: confirmed.  When the pending sequence is empty, `shift`
returns `undefined` and both `clearQueue` and `shuffle` place that value
back at the head, leaving the sequence `[undefined]` — a single non-Track
entry. -/
theorem clearQueue_shuffle_empty_undefined (st : PlayerState) (g : String)
    (q : Queue) (sortImpl : List JSTrack → List JSTrack)
    (hq : findQueue st g = some q) (ht : q.tracks = [])
    (hperm : ∀ l, (sortImpl l).Perm l) :
    (clearQueue st g).map (fun r => r.1.tracks) = Except.ok [(none : JSTrack)]
    ∧ (shuffle st g sortImpl).map (fun r => r.1.tracks) = Except.ok [(none : JSTrack)] := by
  have hs : sortImpl [] = [] := (hperm []).eq_nil
  constructor
  · simp [clearQueue, hq, ht, jsShift, Except.map]
  · simp [shuffle, hq, ht, jsShift, hs, Except.map]

/-- Witness for C10 at a concrete empty-pending session, with the identity
reordering (a permutation) standing for the random sort. -/
theorem clearQueue_shuffle_empty_undefined_w :
    (clearQueue c10State "ge").map (fun r => r.1.tracks) = Except.ok [(none : JSTrack)]
    ∧ (shuffle c10State "ge" id).map (fun r => r.1.tracks) = Except.ok [(none : JSTrack)] :=
  clearQueue_shuffle_empty_undefined c10State "ge" c10Queue id rfl rfl
    (fun l => List.Perm.refl l)

end DiscordPlayer
